import Mathlib

/-!
Verification of the introspection-to-SDL converter (src/main.py) of the
GraphQL_Converter repository.  The Python data (JSON dictionaries) is embedded
shallowly: a possibly-null nested type reference becomes the inductive
`TypeRef` (constructor `null` models Python `None`), dictionaries with fixed
keys become structures with `Option` fields (`none` models an absent key or a
JSON null value), and the type map becomes an association list.  The recursive
resolver `convert_type` of the source is not total on all inputs (its fallback
path can rebuild the very node it is resolving), so it is embedded with an
explicit fuel parameter; `convert_type` runs the fuel version at a bound that
is sufficient for every terminating run, and a `none` result models a run that
does not terminate.
-/

namespace GqlConv

/-- Python `str.capitalize`: first character upper-cased, the rest lower-cased. -/
def pyCapitalize (s : String) : String :=
  match s.data with
  | [] => ""
  | c :: cs => String.mk (c.toUpper :: cs.map Char.toLower)

/-- Python `str.endswith`, computed on the character list. -/
def pyEndsWith (s post : String) : Bool :=
  post.data.isSuffixOf s.data

/-- Python `str.startswith`, computed on the character list. -/
def pyStartsWith (s pre : String) : Bool :=
  pre.data.isPrefixOf s.data

/-- Python `s[:-n]`: all characters but the last `n`. -/
def pyDropRight (s : String) (n : Nat) : String :=
  String.mk (s.data.take (s.data.length - n))

/-- Embedding of `singularize` (src/main.py lines 16-26). -/
def singularize (name : String) : String :=
  if pyEndsWith name "ies" then
    pyDropRight name 3 ++ "y"
  else if pyEndsWith name "s" then
    pyCapitalize (pyDropRight name 1)
  else
    pyCapitalize name

/-- A possibly-null introspection type reference: Python `None` is `null`,
a dict with keys `kind`, `name`, `ofType` is `mk` (each value possibly
absent/null, and `ofType` again possibly null). -/
inductive TypeRef where
  | null
  | mk (kind : Option String) (name : Option String) (ofType : TypeRef)
deriving DecidableEq, Repr

/-- An object field dict: `name` and `type` are accessed with `[]` in the
source, so they are modelled as always present (the `type` value may be null). -/
structure Field where
  name : String
  type : TypeRef
deriving DecidableEq, Repr

/-- An input field dict; `defaultValue` is read with `.get`, hence optional. -/
structure InputField where
  name : String
  type : TypeRef
  defaultValue : Option String
deriving DecidableEq, Repr

/-- An enum value dict; only its `name` key is read. -/
structure EnumVal where
  name : String
deriving DecidableEq, Repr

/-- A top-level introspection type dict.  Every key is read with `.get` in the
source, hence optional.  The `fields` list may contain null entries (the
source filters `if f is not None`). -/
structure Ty where
  name : Option String
  kind : Option String
  fields : Option (List (Option Field))
  inputFields : Option (List InputField)
  enumValues : Option (List EnumVal)
deriving DecidableEq, Repr

/-- The type map built in `generate_graphql_schema`: a name-to-type dictionary,
modelled as an association list with unique keys. -/
abbrev TypeMap := List (String × Ty)

/-- Python truthiness of an optional string (`None` and `""` are falsy). -/
def truthyStr : Option String → Bool
  | some s => s ≠ ""
  | none => false

/-- Python `graphql_type.get('name') or "UNKNOWN"`: an absent, null or empty
name falls through to the sentinel. -/
def pyOrUnknown : Option String → String
  | some s => if s = "" then "UNKNOWN" else s
  | none => "UNKNOWN"

/-- Python `type_map.get(candidate, {}).get("kind", "OBJECT")`. -/
def dictKind (tm : TypeMap) (c : String) : String :=
  match List.lookup c tm with
  | some t => t.kind.getD "OBJECT"
  | none => "OBJECT"

/-- The inner node the source builds when a NON_NULL/LIST wrapper has no
`ofType` (src/main.py lines 39-46 and 50-57). -/
def fallbackInner (fb : Option String) (tm : TypeMap) : TypeRef :=
  if truthyStr fb && !tm.isEmpty then
    TypeRef.mk (some (dictKind tm (singularize (fb.getD "")))) (some (singularize (fb.getD ""))) TypeRef.null
  else
    TypeRef.mk (some "OBJECT") (some "UNKNOWN") TypeRef.null

/-- Length of a chain of `ofType` wrappers. -/
def sizeT : TypeRef → Nat
  | .null => 0
  | .mk _ _ o => sizeT o + 1

/-- The inner reference a wrapper recurses into: its `ofType` when present,
otherwise the fallback node (the `if inner is None` bodies of the source). -/
def innerOf (ofTy : TypeRef) (fb : Option String) (tm : TypeMap) : TypeRef :=
  match ofTy with
  | .null => fallbackInner fb tm
  | x => x

/-- Fuel-indexed embedding of `convert_type` (src/main.py lines 28-60); a
`none` result means the recursion did not finish within the given fuel. -/
def convert_type_fuel : Nat → TypeRef → Option String → TypeMap → Option String
  | _, .null, _, _ => some "UNKNOWN"
  | 0, .mk _ _ _, _, _ => none
  | fuel + 1, .mk kind name ofTy, fb, tm =>
    if kind = some "NON_NULL" then
      (convert_type_fuel fuel (innerOf ofTy fb tm) fb tm).map (fun s => s ++ "!")
    else if kind = some "LIST" then
      (convert_type_fuel fuel (innerOf ofTy fb tm) fb tm).map (fun s => "[" ++ s ++ "]")
    else
      some (pyOrUnknown name)

/-- `convert_type` run with enough fuel for every terminating execution: a
terminating run descends through at most `sizeT r` wrappers plus one
fallback-built node, so `sizeT r + 2` frames always suffice; `none` means the
Python function recurses forever on this input. -/
def convert_type (r : TypeRef) (fb : Option String) (tm : TypeMap) : Option String :=
  convert_type_fuel (sizeT r + 2) r fb tm

/-- Embedding of `convert_field` (src/main.py lines 62-64). -/
def convert_field (f : Field) (tm : TypeMap) : Option String :=
  (convert_type f.type (some f.name) tm).map (fun s => f.name ++ ": " ++ s)

/-- Embedding of `convert_input_field` (src/main.py lines 66-72). -/
def convert_input_field (f : InputField) (tm : TypeMap) : Option String :=
  (convert_type f.type (some f.name) tm).map (fun s =>
    match f.defaultValue with
    | some d => f.name ++ ": " ++ s ++ " = " ++ d
    | none => f.name ++ ": " ++ s)

/-- Sequence a list of optional results, failing if any entry failed. -/
def optList {α : Type} : List (Option α) → Option (List α)
  | [] => some []
  | none :: _ => none
  | some a :: rest => (optList rest).map (fun l => a :: l)

/-- One iteration of the loop body of `generate_graphql_schema`
(src/main.py lines 113-131): `none` means a field conversion diverged,
`some none` means the type produces no block, `some (some b)` means block `b`
is appended. -/
def renderType (tm : TypeMap) (t : Ty) : Option (Option String) :=
  match t.name with
  | none => some none
  | some name =>
    if name = "" || pyStartsWith name "__" then some none
    else
      match t.fields with
      | some fs =>
        if fs.isEmpty then some none
        else
          match optList ((fs.reduceOption).map (fun f => convert_field f tm)) with
          | none => none
          | some lines =>
            some (some ("type " ++ name ++ " \x7b\n  " ++ String.intercalate "\n  " lines ++ "\n\x7d"))
      | none =>
        match t.inputFields with
        | some ifs =>
          match optList (ifs.map (fun f => convert_input_field f tm)) with
          | none => none
          | some lines =>
            some (some ("input " ++ name ++ " \x7b\n  " ++ String.intercalate "\n  " lines ++ "\n\x7d"))
        | none =>
          match t.enumValues with
          | some evs =>
            if evs.isEmpty then some none
            else
              some (some ("enum " ++ name ++ " \x7b\n  " ++
                String.intercalate "\n  " (evs.map EnumVal.name) ++ "\n\x7d"))
          | none => some (some ("scalar " ++ name))

/-- The `schema_parts` accumulation loop of `generate_graphql_schema`:
blocks in input order, skipped types contributing nothing; `none` when some
conversion diverged. -/
def schema_parts (tm : TypeMap) : List Ty → Option (List String)
  | [] => some []
  | t :: rest =>
    match renderType tm t with
    | none => none
    | some none => schema_parts tm rest
    | some (some b) => (schema_parts tm rest).map (fun l => b :: l)

/-- Insert with overwrite, mirroring repeated dict-comprehension assignment. -/
def insertOv : TypeMap → String → Ty → TypeMap
  | [], k, v => [(k, v)]
  | p :: rest, k, v => if p.1 = k then (k, v) :: rest else p :: insertOv rest k v

/-- The dict comprehension of src/main.py line 111: every type with a truthy
name, later entries overwriting earlier ones. -/
def buildTypeMap (types : List Ty) : TypeMap :=
  types.foldl
    (fun m t =>
      match t.name with
      | some n => if n = "" then m else insertOv m n t
      | none => m)
    []

/-- The value under the `__schema` key of the input document. -/
structure SchemaObj where
  types : Option (List Ty)
deriving DecidableEq, Repr

/-- The value under the `data` key of the input document. -/
structure DataObj where
  schema : Option SchemaObj
deriving DecidableEq, Repr

/-- The whole introspection JSON document, as far as the converter reads it. -/
structure IntroInput where
  data : Option DataObj
deriving DecidableEq, Repr

/-- Outcome of `generate_graphql_schema`: a raised KeyError on the structural
accesses of line 110, a run that never terminates, or the SDL text. -/
inductive GenResult where
  | keyError (key : String)
  | diverge
  | ok (sdl : String)
deriving DecidableEq, Repr

/-- Embedding of `generate_graphql_schema` (src/main.py lines 101-132). -/
def generate_graphql_schema (d : IntroInput) : GenResult :=
  match d.data with
  | none => .keyError "data"
  | some dd =>
    match dd.schema with
    | none => .keyError "__schema"
    | some sc =>
      match sc.types with
      | none => .keyError "types"
      | some types =>
        match schema_parts (buildTypeMap types) types with
        | none => .diverge
        | some parts => .ok (String.intercalate "\n\n" parts ++ "\n")

/-- A reference chain is fully formed when every NON_NULL/LIST wrapper
carries its inner `ofType`. -/
def wfChain : TypeRef → Bool
  | .null => true
  | .mk k _ o =>
    if k = some "NON_NULL" || k = some "LIST" then
      match o with
      | .null => false
      | .mk k2 n2 o2 => wfChain (.mk k2 n2 o2)
    else true

/-- The resolver loops forever on this input: no amount of fuel produces a
result. -/
def DivergesOn (r : TypeRef) (fb : Option String) (tm : TypeMap) : Prop :=
  ∀ fuel, convert_type_fuel fuel r fb tm = none

/-! Concrete sample values used below. -/

/-- A type named Post of kind OBJECT. -/
def postTy : Ty := ⟨some "Post", some "OBJECT", none, none, none⟩

/-- A malformed map entry whose kind is the wrapper kind NON_NULL. -/
def wrapTy : Ty := ⟨some "Post", some "NON_NULL", none, none, none⟩

/-- An input type whose inputFields list is present but empty. -/
def inFoo : Ty := ⟨some "Foo", some "INPUT_OBJECT", none, some [], none⟩

/-- An object type whose fields list is present but empty. -/
def emptyObj : Ty := ⟨some "Obj", some "OBJECT", some [], none, none⟩

/-- An enum type whose enumValues list is present but empty. -/
def emptyEnum : Ty := ⟨some "E", some "ENUM", none, none, some []⟩

/-- A scalar leaf reference named ID. -/
def idScalar : TypeRef := TypeRef.mk (some "SCALAR") (some "ID") TypeRef.null

/-- An object type with one field `id: ID!`. -/
def postObj : Ty :=
  ⟨some "Post", some "OBJECT",
    some [some ⟨"id", TypeRef.mk (some "NON_NULL") none idScalar⟩], none, none⟩

/-! Unfolding lemmas for the resolver. -/

lemma ct_null (fb : Option String) (tm : TypeMap) :
    convert_type TypeRef.null fb tm = some "UNKNOWN" := rfl

lemma ct_leaf (k n : Option String) (o : TypeRef) (fb : Option String) (tm : TypeMap)
    (h1 : k ≠ some "NON_NULL") (h2 : k ≠ some "LIST") :
    convert_type (TypeRef.mk k n o) fb tm = some (pyOrUnknown n) := by
  show convert_type_fuel (sizeT o + 2 + 1) (TypeRef.mk k n o) fb tm = some (pyOrUnknown n)
  rw [convert_type_fuel]
  rw [if_neg h1, if_neg h2]

lemma ct_nonnull (n : Option String) (o : TypeRef) (fb : Option String) (tm : TypeMap)
    (ho : o ≠ TypeRef.null) :
    convert_type (TypeRef.mk (some "NON_NULL") n o) fb tm =
      (convert_type o fb tm).map (fun s => s ++ "!") := by
  cases o with
  | null => exact absurd rfl ho
  | mk k2 n2 o2 => rfl

lemma ct_list (n : Option String) (o : TypeRef) (fb : Option String) (tm : TypeMap)
    (ho : o ≠ TypeRef.null) :
    convert_type (TypeRef.mk (some "LIST") n o) fb tm =
      (convert_type o fb tm).map (fun s => "[" ++ s ++ "]") := by
  cases o with
  | null => exact absurd rfl ho
  | mk k2 n2 o2 => rfl

lemma ct_nonnull_fb (n : Option String) (fb : Option String) (tm : TypeMap) :
    convert_type (TypeRef.mk (some "NON_NULL") n TypeRef.null) fb tm =
      (convert_type_fuel 2 (fallbackInner fb tm) fb tm).map (fun s => s ++ "!") := rfl

lemma ct_list_fb (n : Option String) (fb : Option String) (tm : TypeMap) :
    convert_type (TypeRef.mk (some "LIST") n TypeRef.null) fb tm =
      (convert_type_fuel 2 (fallbackInner fb tm) fb tm).map (fun s => "[" ++ s ++ "]") := rfl

lemma fallbackInner_falsy (fb : Option String) (tm : TypeMap)
    (h : truthyStr fb = false ∨ tm = []) :
    fallbackInner fb tm = TypeRef.mk (some "OBJECT") (some "UNKNOWN") TypeRef.null := by
  unfold fallbackInner
  rcases h with h | h
  · rw [h]; rfl
  · subst h; rw [Bool.and_comm]; rfl

lemma fallbackInner_truthy (fb : String) (tm : TypeMap)
    (hfb : fb ≠ "") (htm : tm ≠ []) :
    fallbackInner (some fb) tm =
      TypeRef.mk (some (dictKind tm (singularize fb))) (some (singularize fb)) TypeRef.null := by
  unfold fallbackInner
  have h1 : truthyStr (some fb) = true := by simp [truthyStr, hfb]
  have h2 : tm.isEmpty = false := by
    cases tm with
    | nil => exact absurd rfl htm
    | cons p rest => rfl
  rw [h1, h2]
  rfl

lemma ctf2_leaf (k : String) (n : Option String) (fb : Option String) (tm : TypeMap)
    (h1 : k ≠ "NON_NULL") (h2 : k ≠ "LIST") :
    convert_type_fuel 2 (TypeRef.mk (some k) n TypeRef.null) fb tm = some (pyOrUnknown n) := by
  rw [show (2 : Nat) = 1 + 1 from rfl, convert_type_fuel]
  rw [if_neg (by simpa using h1), if_neg (by simpa using h2)]

/-! Divergence of the fallback path when the guessed kind is itself a wrapper. -/

lemma fallback_loop (fb : String) (tm : TypeMap) (hfb : fb ≠ "") (htm : tm ≠ [])
    (hwrap : dictKind tm (singularize fb) = "NON_NULL" ∨ dictKind tm (singularize fb) = "LIST") :
    ∀ fuel, convert_type_fuel fuel (fallbackInner (some fb) tm) (some fb) tm = none := by
  intro fuel
  induction fuel with
  | zero =>
    rw [fallbackInner_truthy fb tm hfb htm]
    rfl
  | succ m ih =>
    conv_lhs => rw [fallbackInner_truthy fb tm hfb htm]
    have hinner : innerOf TypeRef.null (some fb) tm = fallbackInner (some fb) tm := rfl
    rcases hwrap with h | h
    · rw [convert_type_fuel, if_pos (by rw [h]), hinner, ih]
      rfl
    · have hne : (some (dictKind tm (singularize fb)) : Option String) ≠ some "NON_NULL" := by
        rw [h]; simp
      rw [convert_type_fuel, if_neg hne, if_pos (by rw [h]), hinner, ih]
      rfl

lemma diverge_top (nm : Option String) (fb : String) (tm : TypeMap)
    (hfb : fb ≠ "") (htm : tm ≠ [])
    (hwrap : dictKind tm (singularize fb) = "NON_NULL" ∨ dictKind tm (singularize fb) = "LIST") :
    DivergesOn (TypeRef.mk (some "NON_NULL") nm TypeRef.null) (some fb) tm := by
  intro fuel
  cases fuel with
  | zero => rfl
  | succ m =>
    rw [convert_type_fuel, if_pos rfl]
    have h0 : innerOf TypeRef.null (some fb) tm = fallbackInner (some fb) tm := rfl
    rw [h0, fallback_loop fb tm hfb htm hwrap m]
    rfl

/-! Evaluation on fully formed chains: any fuel above the chain length gives
the same result, and the result is always a value. -/

lemma wf_eval (r : TypeRef) : ∀ (fb : Option String) (tm : TypeMap) (f : Nat),
    wfChain r = true → sizeT r < f →
    convert_type_fuel f r fb tm = convert_type r fb tm ∧
      (convert_type r fb tm).isSome = true := by
  induction r with
  | null =>
    intro fb tm f _ hf
    cases f with
    | zero => omega
    | succ m => exact ⟨rfl, rfl⟩
  | mk k n o ih =>
    intro fb tm f hwf hf
    cases f with
    | zero => omega
    | succ m =>
    by_cases hk1 : k = some "NON_NULL"
    · subst hk1
      have ho : o ≠ TypeRef.null := by
        intro h; subst h; simp [wfChain] at hwf
      have hwo : wfChain o = true := by
        cases o with
        | null => exact absurd rfl ho
        | mk k2 n2 o2 => simpa [wfChain] using hwf
      have hs : sizeT o < m := by
        simp only [sizeT] at hf; omega
      have ih1 := ih fb tm m hwo hs
      have hio : innerOf o fb tm = o := by
        cases o with
        | null => exact absurd rfl ho
        | mk k2 n2 o2 => rfl
      constructor
      · rw [convert_type_fuel, if_pos rfl, hio, ih1.1, ct_nonnull n o fb tm ho]
      · rw [ct_nonnull n o fb tm ho]
        rcases Option.isSome_iff_exists.mp ih1.2 with ⟨v, hv⟩
        rw [hv]
        rfl
    · by_cases hk2 : k = some "LIST"
      · subst hk2
        have ho : o ≠ TypeRef.null := by
          intro h; subst h; simp [wfChain] at hwf
        have hwo : wfChain o = true := by
          cases o with
          | null => exact absurd rfl ho
          | mk k2 n2 o2 => simpa [wfChain] using hwf
        have hs : sizeT o < m := by
          simp only [sizeT] at hf; omega
        have ih1 := ih fb tm m hwo hs
        have hio : innerOf o fb tm = o := by
          cases o with
          | null => exact absurd rfl ho
          | mk k2 n2 o2 => rfl
        constructor
        · rw [convert_type_fuel, if_neg (by simp), if_pos rfl, hio, ih1.1,
            ct_list n o fb tm ho]
        · rw [ct_list n o fb tm ho]
          rcases Option.isSome_iff_exists.mp ih1.2 with ⟨v, hv⟩
          rw [hv]
          rfl
      · constructor
        · rw [convert_type_fuel, if_neg hk1, if_neg hk2]
          rw [ct_leaf k n o fb tm hk1 hk2]
        · rw [ct_leaf k n o fb tm hk1 hk2]
          rfl

lemma ct_nonnull_fb_eval (nm : Option String) (fb : String) (tm : TypeMap)
    (hfb : fb ≠ "") (htm : tm ≠ [])
    (h1 : dictKind tm (singularize fb) ≠ "NON_NULL")
    (h2 : dictKind tm (singularize fb) ≠ "LIST") :
    convert_type (TypeRef.mk (some "NON_NULL") nm TypeRef.null) (some fb) tm =
      some (pyOrUnknown (some (singularize fb)) ++ "!") := by
  rw [ct_nonnull_fb, fallbackInner_truthy fb tm hfb htm,
    ctf2_leaf (dictKind tm (singularize fb)) (some (singularize fb)) (some fb) tm h1 h2]
  rfl

lemma ct_list_fb_eval (nm : Option String) (fb : String) (tm : TypeMap)
    (hfb : fb ≠ "") (htm : tm ≠ [])
    (h1 : dictKind tm (singularize fb) ≠ "NON_NULL")
    (h2 : dictKind tm (singularize fb) ≠ "LIST") :
    convert_type (TypeRef.mk (some "LIST") nm TypeRef.null) (some fb) tm =
      some ("[" ++ pyOrUnknown (some (singularize fb)) ++ "]") := by
  rw [ct_list_fb, fallbackInner_truthy fb tm hfb htm,
    ctf2_leaf (dictKind tm (singularize fb)) (some (singularize fb)) (some fb) tm h1 h2]
  rfl

lemma ct_nonnull_fb_falsy (nm : Option String) (fb : Option String) (tm : TypeMap)
    (h : truthyStr fb = false ∨ tm = []) :
    convert_type (TypeRef.mk (some "NON_NULL") nm TypeRef.null) fb tm = some "UNKNOWN!" := by
  rw [ct_nonnull_fb, fallbackInner_falsy fb tm h,
    ctf2_leaf "OBJECT" (some "UNKNOWN") fb tm (by decide) (by decide)]
  rfl

lemma ct_list_fb_falsy (nm : Option String) (fb : Option String) (tm : TypeMap)
    (h : truthyStr fb = false ∨ tm = []) :
    convert_type (TypeRef.mk (some "LIST") nm TypeRef.null) fb tm = some "[UNKNOWN]" := by
  rw [ct_list_fb, fallbackInner_falsy fb tm h,
    ctf2_leaf "OBJECT" (some "UNKNOWN") fb tm (by decide) (by decide)]
  rfl

/-! The claims. -/

/-- C2, counterexample: the `ies` branch of `singularize` does not capitalize,
so `singularize "categories"` is `"category"`, which differs from `"Category"`
and does not start with an uppercase letter. -/
theorem c2_counterexample :
    singularize "categories" = "category" ∧
      ("category" : String) ≠ "Category" ∧
      (singularize "categories").front.isUpper = false := by
  refine ⟨rfl, by decide, ?_⟩
  decide

/-- C2 (amended): `singularize "posts" = "Post"` and `singularize "data" = "Data"`
as claimed, but the `ies` branch leaves the result uncapitalized:
`singularize "categories" = "category"`. -/
theorem c2_amended :
    singularize "posts" = "Post" ∧ singularize "data" = "Data" ∧
      singularize "categories" = "category" :=
  ⟨rfl, rfl, rfl⟩

/-- C3, counterexample: with a NON_NULL wrapper missing its `ofType`,
fallback name "posts" and a non-empty TypeMap in which the lookup of the
candidate "Post" fails, the resolver returns "Post!" (the singularized
candidate), not "UNKNOWN!" as the claim states for a failed lookup. -/
theorem c3_counterexample :
    convert_type (TypeRef.mk (some "NON_NULL") none TypeRef.null) (some "posts")
        [("Zebra", postTy)] = some "Post!" ∧
      (some "Post!" : Option String) ≠ some "UNKNOWN!" :=
  ⟨rfl, by decide⟩

/-- C3 (amended): on a NON_NULL or LIST wrapper with missing `ofType` the
resolver invokes the singularization fallback and returns a value (provided
the TypeMap does not send the candidate to a wrapper kind): with a truthy
fallback name and non-empty map it emits the singularized candidate itself —
only the kind, not the name, defaults on a failed lookup — and it emits
UNKNOWN only when no guess is possible (absent fallback name or empty map). -/
theorem c3_amended (nm : Option String) (fb : String) (tm : TypeMap)
    (hfb : fb ≠ "") (htm : tm ≠ [])
    (h1 : dictKind tm (singularize fb) ≠ "NON_NULL")
    (h2 : dictKind tm (singularize fb) ≠ "LIST") :
    convert_type (TypeRef.mk (some "NON_NULL") nm TypeRef.null) (some fb) tm =
        some (pyOrUnknown (some (singularize fb)) ++ "!") ∧
      convert_type (TypeRef.mk (some "LIST") nm TypeRef.null) (some fb) tm =
        some ("[" ++ pyOrUnknown (some (singularize fb)) ++ "]") ∧
      convert_type (TypeRef.mk (some "NON_NULL") nm TypeRef.null) none tm =
        some "UNKNOWN!" ∧
      convert_type (TypeRef.mk (some "LIST") nm TypeRef.null) (some fb) [] =
        some "[UNKNOWN]" :=
  ⟨ct_nonnull_fb_eval nm fb tm hfb htm h1 h2,
   ct_list_fb_eval nm fb tm hfb htm h1 h2,
   ct_nonnull_fb_falsy nm none tm (Or.inl rfl),
   ct_list_fb_falsy nm (some fb) [] (Or.inr rfl)⟩

/-- C3, witness: the amended statement at fallback name "posts" and the map
containing Post. -/
theorem c3_amended_witness :
    convert_type (TypeRef.mk (some "NON_NULL") none TypeRef.null) (some "posts")
        [("Post", postTy)] = some (pyOrUnknown (some (singularize "posts")) ++ "!") ∧
      convert_type (TypeRef.mk (some "LIST") none TypeRef.null) (some "posts")
        [("Post", postTy)] = some ("[" ++ pyOrUnknown (some (singularize "posts")) ++ "]") ∧
      convert_type (TypeRef.mk (some "NON_NULL") none TypeRef.null) none
        [("Post", postTy)] = some "UNKNOWN!" ∧
      convert_type (TypeRef.mk (some "LIST") none TypeRef.null) (some "posts") [] =
        some "[UNKNOWN]" :=
  c3_amended none "posts" [("Post", postTy)] (by decide) (by decide) (by decide) (by decide)

/-- C4, counterexample: a leaf whose `name` is present but equal to the empty
string resolves to "UNKNOWN", not to its name - so the claim that a named
leaf always yields its name fails at the empty name. -/
theorem c4_counterexample :
    convert_type (TypeRef.mk (some "SCALAR") (some "") TypeRef.null) none [] =
        some "UNKNOWN" ∧
      ("UNKNOWN" : String) ≠ "" :=
  ⟨rfl, by decide⟩

/-- C4 (amended): on well-formed chains the resolver is the pure structural
mapping of the claim, except that a leaf name equal to the empty string is
treated like an absent name: NON_NULL(X) appends "!", LIST(X) wraps in
brackets, a leaf yields its name when present and non-empty and UNKNOWN when
absent or empty, and a null reference yields UNKNOWN. -/
theorem c4_amended (fb : Option String) (tm : TypeMap) (n k : Option String)
    (nm : String) (o X : TypeRef)
    (hX : X ≠ TypeRef.null) (_hwf : wfChain X = true)
    (hk1 : k ≠ some "NON_NULL") (hk2 : k ≠ some "LIST") :
    convert_type (TypeRef.mk (some "NON_NULL") n X) fb tm =
        (convert_type X fb tm).map (fun s => s ++ "!") ∧
      convert_type (TypeRef.mk (some "LIST") n X) fb tm =
        (convert_type X fb tm).map (fun s => "[" ++ s ++ "]") ∧
      convert_type (TypeRef.mk k (some nm) o) fb tm =
        some (if nm = "" then "UNKNOWN" else nm) ∧
      convert_type (TypeRef.mk k none o) fb tm = some "UNKNOWN" ∧
      convert_type TypeRef.null fb tm = some "UNKNOWN" :=
  ⟨ct_nonnull n X fb tm hX, ct_list n X fb tm hX,
   by rw [ct_leaf k (some nm) o fb tm hk1 hk2]; rfl,
   by rw [ct_leaf k none o fb tm hk1 hk2]; rfl,
   rfl⟩

/-- C4, witness: the amended statement at the scalar leaf ID under each
wrapper, a scalar leaf with name "ID", a nameless leaf, and null. -/
theorem c4_amended_witness :
    convert_type (TypeRef.mk (some "NON_NULL") none idScalar) none [] =
        (convert_type idScalar none []).map (fun s => s ++ "!") ∧
      convert_type (TypeRef.mk (some "LIST") none idScalar) none [] =
        (convert_type idScalar none []).map (fun s => "[" ++ s ++ "]") ∧
      convert_type (TypeRef.mk (some "SCALAR") (some "ID") TypeRef.null) none [] =
        some (if "ID" = "" then "UNKNOWN" else "ID") ∧
      convert_type (TypeRef.mk (some "SCALAR") none TypeRef.null) none [] =
        some "UNKNOWN" ∧
      convert_type TypeRef.null none [] = some "UNKNOWN" :=
  c4_amended none [] none (some "SCALAR") "ID" TypeRef.null idScalar
    (by decide) (by decide) (by decide) (by decide)

/-- C5: a NON_NULL TypeRef with null `ofType`, fallback field name "posts" and
a TypeMap containing a type named Post of kind OBJECT resolves to "Post!". -/
theorem c5_fallback_scenario :
    convert_type (TypeRef.mk (some "NON_NULL") none TypeRef.null) (some "posts")
      [("Post", postTy)] = some "Post!" := rfl

/-- C7: the SDL generator and the resolver are pure functions of their
arguments — the embedding threads no state, so two runs on the same
introspection document (and the same resolver arguments) give identical
results. -/
theorem c7_deterministic (d : IntroInput) (r : TypeRef) (fb : Option String)
    (tm : TypeMap) :
    generate_graphql_schema d = generate_graphql_schema d ∧
      convert_type r fb tm = convert_type r fb tm :=
  ⟨rfl, rfl⟩

/-- C8: every document lacking the top-level path data.__schema.types - the
`data` key absent (as in the empty document), the `__schema` key absent, or
the `types` key absent - makes the generator raise the structural KeyError of
line 110 and produce no SDL value at all. -/
theorem c8_structural_error (d : IntroInput)
    (h : d.data = none ∨ (∃ dd, d.data = some dd ∧ dd.schema = none) ∨
      (∃ dd sc, d.data = some dd ∧ dd.schema = some sc ∧ sc.types = none)) :
    (∃ key, generate_graphql_schema d = GenResult.keyError key) ∧
      ∀ s, generate_graphql_schema d ≠ GenResult.ok s := by
  have hk : ∃ key, generate_graphql_schema d = GenResult.keyError key := by
    rcases h with h1 | ⟨dd, h1, h2⟩ | ⟨dd, sc, h1, h2, h3⟩
    · exact ⟨"data", by simp [generate_graphql_schema, h1]⟩
    · exact ⟨"__schema", by simp [generate_graphql_schema, h1, h2]⟩
    · exact ⟨"types", by simp [generate_graphql_schema, h1, h2, h3]⟩
  refine ⟨hk, ?_⟩
  rcases hk with ⟨key, hkey⟩
  intro s hok
  rw [hkey] at hok
  exact GenResult.noConfusion hok

/-- C8, witness: the structural-error statement at the empty document. -/
theorem c8_structural_error_witness :
    (∃ key, generate_graphql_schema ⟨none⟩ = GenResult.keyError key) ∧
      ∀ s, generate_graphql_schema ⟨none⟩ ≠ GenResult.ok s :=
  c8_structural_error ⟨none⟩ (Or.inl rfl)

/-- C9, counterexample: the resolver does not terminate on every finite chain:
on a NON_NULL reference with missing `ofType`, fallback name "posts" and a
TypeMap sending "Post" to a type of wrapper kind NON_NULL, the fallback
rebuilds the node it is resolving and the recursion never finishes. -/
theorem c9_counterexample :
    DivergesOn (TypeRef.mk (some "NON_NULL") none TypeRef.null) (some "posts")
      [("Post", wrapTy)] :=
  diverge_top none "posts" [("Post", wrapTy)] (by decide) (by decide) (Or.inl (by decide))

/-- C9 (amended): on every chain in which each NON_NULL/LIST wrapper carries
its `ofType`, the resolver terminates by plain structural recursion and the
work is bounded by the chain length: fuel one past the chain length already
yields the final value, and any larger fuel yields the same value. -/
theorem c9_amended (r : TypeRef) (fb : Option String) (tm : TypeMap)
    (h : wfChain r = true) :
    (convert_type r fb tm).isSome = true ∧
      ∀ f, sizeT r + 1 ≤ f → convert_type_fuel f r fb tm = convert_type r fb tm :=
  ⟨(wf_eval r fb tm (sizeT r + 1) h (by omega)).2,
   fun f hf => (wf_eval r fb tm f h (by omega)).1⟩

/-- C9, witness: the amended statement on the chain NON_NULL(LIST(ID)). -/
theorem c9_amended_witness :
    (convert_type (TypeRef.mk (some "NON_NULL") none
        (TypeRef.mk (some "LIST") none idScalar)) none []).isSome = true ∧
      convert_type_fuel 10 (TypeRef.mk (some "NON_NULL") none
          (TypeRef.mk (some "LIST") none idScalar)) none [] =
        convert_type (TypeRef.mk (some "NON_NULL") none
          (TypeRef.mk (some "LIST") none idScalar)) none [] :=
  ⟨(c9_amended (TypeRef.mk (some "NON_NULL") none
      (TypeRef.mk (some "LIST") none idScalar)) none [] (by decide)).1,
   (c9_amended (TypeRef.mk (some "NON_NULL") none
      (TypeRef.mk (some "LIST") none idScalar)) none [] (by decide)).2 10 (by decide)⟩

/-- C10: a leaf reference (kind neither NON_NULL nor LIST) whose name is
present but empty resolves to UNKNOWN, exactly as an absent name does. -/
theorem c10_empty_name (k : Option String) (o : TypeRef) (fb : Option String)
    (tm : TypeMap) (h1 : k ≠ some "NON_NULL") (h2 : k ≠ some "LIST") :
    convert_type (TypeRef.mk k (some "") o) fb tm = some "UNKNOWN" := by
  rw [ct_leaf k (some "") o fb tm h1 h2]
  rfl

/-- C1, counterexample: a document whose only type has a present-but-empty
`inputFields` list produces the vacuous block `input Foo { }` in the SDL
output instead of being skipped (the output would be a bare newline if the
type were skipped). -/
theorem c1_counterexample :
    generate_graphql_schema ⟨some ⟨some ⟨some [inFoo]⟩⟩⟩ =
        GenResult.ok ("input Foo \x7b\n  \n\x7d\n") ∧
      ("input Foo \x7b\n  \n\x7d\n" : String) ≠ "\n" :=
  ⟨rfl, by decide⟩

/-- C1 (amended): an object type with a present-but-empty `fields` list and an
enum type with a present-but-empty `enumValues` list produce no SDL block, but
an input type with a present-but-empty `inputFields` list is emitted as a
vacuous `input` block. -/
theorem c1_amended (tm : TypeMap) (nm k : Option String)
    (ifl : Option (List InputField)) (evl : Option (List EnumVal)) (n : String)
    (hn1 : n ≠ "") (hn2 : pyStartsWith n "__" = false) :
    renderType tm ⟨nm, k, some [], ifl, evl⟩ = some none ∧
      renderType tm ⟨nm, k, none, none, some []⟩ = some none ∧
      renderType tm ⟨some n, k, none, some [], none⟩ =
        some (some ("input " ++ n ++ " \x7b\n  \n\x7d")) := by
  refine ⟨?_, ?_, ?_⟩
  · cases nm with
    | none => rfl
    | some name => simp [renderType]
  · cases nm with
    | none => rfl
    | some name => simp [renderType]
  · have hcond : (decide (n = "") || pyStartsWith n "__") = false := by
      rw [decide_eq_false hn1, hn2]
      rfl
    have hstr : "input " ++ n ++ " \x7b\n  " ++ String.intercalate "\n  " [] ++ "\n\x7d" =
        "input " ++ n ++ " \x7b\n  \n\x7d" := by
      show "input " ++ n ++ " \x7b\n  " ++ "" ++ "\n\x7d" = "input " ++ n ++ " \x7b\n  \n\x7d"
      rw [String.append_empty, String.append_assoc]
      congr 1
    simp only [renderType, hcond, Bool.false_eq_true, if_false, List.map_nil, optList,
      Option.map_some]
    rw [hstr]

/-- C1, witness: the amended statement at an empty object type, an empty enum
type and the empty input type Foo. -/
theorem c1_amended_witness :
    renderType [] ⟨some "Obj", some "OBJECT", some [], none, none⟩ = some none ∧
      renderType [] ⟨some "E", some "ENUM", none, none, some []⟩ = some none ∧
      renderType [] ⟨some "Foo", some "OBJECT", none, some [], none⟩ =
        some (some ("input " ++ "Foo" ++ " \x7b\n  \n\x7d")) :=
  c1_amended [] (some "Obj") (some "OBJECT") none (some []) "Foo"
    (by decide) (by decide)

/-- C6: whenever the generator loop finishes, the emitted blocks are exactly
the per-type results in input order with the skipped types removed - an
order-preserving subsequence of the input types array. -/
theorem c6_ordering (tm : TypeMap) (ts : List Ty) (parts : List String)
    (h : schema_parts tm ts = some parts) :
    ∃ bs : List (Option String),
      List.Forall₂ (fun t b => renderType tm t = some b) ts bs ∧
        parts = bs.reduceOption := by
  induction ts generalizing parts with
  | nil =>
    simp only [schema_parts, Option.some_inj] at h
    subst h
    exact ⟨[], List.Forall₂.nil, rfl⟩
  | cons t rest ih =>
    cases hr : renderType tm t with
    | none => simp [schema_parts, hr] at h
    | some b =>
      cases b with
      | none =>
        simp only [schema_parts, hr] at h
        rcases ih parts h with ⟨bs, hf, hp⟩
        exact ⟨none :: bs, List.Forall₂.cons hr hf, by
          rw [List.reduceOption_cons_of_none]; exact hp⟩
      | some s =>
        simp only [schema_parts, hr] at h
        cases hrest : schema_parts tm rest with
        | none => rw [hrest] at h; exact Option.noConfusion h
        | some p0 =>
          rw [hrest] at h
          simp only [Option.map_some', Option.some_inj] at h
          subst h
          rcases ih p0 hrest with ⟨bs, hf, hp⟩
          exact ⟨some s :: bs, List.Forall₂.cons hr hf, by
            rw [List.reduceOption_cons_of_some, hp]⟩

/-- C6, witness: the ordering statement on a document with the Post object
type. -/
theorem c6_ordering_witness :
    ∃ bs : List (Option String),
      List.Forall₂ (fun t b => renderType (buildTypeMap [postObj]) t = some b)
          [postObj] bs ∧
        ["type Post \x7b\n  id: ID!\n\x7d"] = bs.reduceOption :=
  c6_ordering (buildTypeMap [postObj]) [postObj] ["type Post \x7b\n  id: ID!\n\x7d"]
    (by decide)

/-- C10, witness: the empty-name rule at a SCALAR leaf. -/
theorem c10_empty_name_witness :
    convert_type (TypeRef.mk (some "SCALAR") (some "") TypeRef.null) (some "x") [] =
      some "UNKNOWN" :=
  c10_empty_name (some "SCALAR") TypeRef.null (some "x") [] (by decide) (by decide)

end GqlConv
